import Mathlib

/-!
Shallow embedding of the thread_framework repository
(src/IThreadWorker.h, src/ThreadManager.h, src/BaseWorkers.h).

Machine integers (size_t) are modelled as Nat with explicit reduction
mod 2^64 where the C++ counter may wrap; SIZE_MAX is the failure sentinel.
The concurrent pieces are modelled as pure state transformers on explicit
state records, with the worker-side polling loop (`shouldContinue`) given
a fuel/time-indexed semantics so that blocking can be expressed.
-/

namespace ThreadFramework

/-- `enum class ThreadState` (IThreadWorker.h, lines 28-33). -/
inductive ThreadState where
  | STOPPED
  | RUNNING
  | PAUSED
  | FINISHED
deriving DecidableEq, Repr

/-- `SIZE_MAX` on a 64-bit platform: the failure sentinel returned by
`createThread` / `createThreadWithWorker` (ThreadManager.h, lines 83, 88, 93, 108, 113). -/
def SIZE_MAX : Nat := 2 ^ 64 - 1

/-- The polling interval of the cooperative wait:
`std::this_thread::sleep_for(std::chrono::milliseconds(100))`
(IThreadWorker.h, line 171). -/
def sleepIntervalMs : Nat := 100

/-- Per-concrete-class payload of a worker.  The four classes of
BaseWorkers.h carry their own fields; `custom ty` models any other
IThreadWorker-derived class (e.g. the workers of src/examples), whose
lifecycle hooks are all the base-class defaults and whose `getType()`
returns `ty`. -/
inductive WorkerData where
  /-- MonitorWorker (BaseWorkers.h 17-121): `enabled_`, `iterationCount_`, `interval_` (ms). -/
  | monitor (enabled : Bool) (iterationCount : Nat) (intervalMs : Nat)
  /-- TaskWorker (BaseWorkers.h 128-190): `completed_`. -/
  | task (completed : Bool)
  /-- TimerWorker (BaseWorkers.h 197-293): `triggerCount_`, `maxTriggers_`, `interval_` (ms). -/
  | timer (triggerCount : Nat) (maxTriggers : Int) (intervalMs : Nat)
  /-- LoopWorker (BaseWorkers.h 300-386): `currentLoop_`, `loopCount_`. -/
  | loop (currentLoop : Nat) (loopCount : Nat)
  /-- Any other IThreadWorker subclass with all-default hooks. -/
  | custom (typeName : String)
deriving DecidableEq, Repr

/-- The fields every IThreadWorker carries (IThreadWorker.h, lines 155-158):
`state`, `shouldStop`, `shouldPause` (all atomic), plus the concrete payload. -/
structure Worker where
  state : ThreadState := ThreadState.STOPPED
  shouldStop : Bool := false
  shouldPause : Bool := false
  data : WorkerData
deriving DecidableEq, Repr

namespace Worker

/-- `IThreadWorker::getType` dispatched over the concrete classes. -/
def getType (w : Worker) : String :=
  match w.data with
  | .monitor _ _ _ => "MonitorWorker"
  | .task _ => "TaskWorker"
  | .timer _ _ _ => "TimerWorker"
  | .loop _ _ => "LoopWorker"
  | .custom ty => ty

/-- `IThreadWorker::onInitialize` (line 77): empty default; no class in the
repository overrides it. -/
def onInitialize (w : Worker) : Worker := w

/-- `IThreadWorker::onStart` (line 84): empty default.  TaskWorker (line 183)
and TimerWorker (line 286) override it with a `std::cout` print only; no
field of the worker is mutated, so the model is the identity. -/
def onStart (w : Worker) : Worker := w

/-- `IThreadWorker::onStop` (line 91): empty default.
`MonitorWorker::onStop` (BaseWorkers.h 117-120) stores `enabled_ = false`
and prints; `TaskWorker::onStop` (187) and `TimerWorker::onStop` (290) only
print.  No override anywhere in the repository writes `shouldStop` or
`shouldPause`. -/
def onStop (w : Worker) : Worker :=
  match w.data with
  | .monitor _ ic iv => { w with data := .monitor false ic iv }
  | _ => w

/-- `IThreadWorker::onPause` (line 98): empty default; no class in the
repository overrides it. -/
def onPause (w : Worker) : Worker := w

/-- `IThreadWorker::onResume` (line 105): empty default; no class in the
repository overrides it. -/
def onResume (w : Worker) : Worker := w

/-- `IThreadWorker::onError` (line 114): empty default; no class in the
repository overrides it. -/
def onError (w : Worker) (_msg : String) : Worker := w

/-- `IThreadWorker::isRunning` (line 129). -/
def isRunning (w : Worker) : Bool := w.state = ThreadState.RUNNING

/-- `IThreadWorker::isPaused` (line 137). -/
def isPaused (w : Worker) : Bool := w.state = ThreadState.PAUSED

/-- `IThreadWorker::isFinished` (line 153). -/
def isFinished (w : Worker) : Bool := w.state = ThreadState.FINISHED

/-- `IThreadWorker::setState` (lines 181-183): plain store. -/
def setState (w : Worker) (s : ThreadState) : Worker := { w with state := s }

end Worker

/-!
### The cooperative continuation check

`IThreadWorker::shouldContinue` (IThreadWorker.h, lines 168-174):

    while (shouldPause.load() && !shouldStop.load()) {
        std::this_thread::sleep_for(std::chrono::milliseconds(100));
    }
    return !shouldStop.load();

The two flags are written by other threads, so they are modelled as
time-indexed observations `pause stop : Nat → Bool`: index `t` is the pair
of loads of the `t`-th evaluation of the loop guard, each blocked iteration
sleeping `sleepIntervalMs` milliseconds before the next.  `fuel` bounds the
number of guard evaluations we unfold; `none` means the loop was still
blocked after `fuel` evaluations.
-/

/-- Runs the guard loop from observation index `t`; returns the index at
which the guard `shouldPause && !shouldStop` first failed. -/
def shouldContinueAux (pause stop : Nat → Bool) : Nat → Nat → Option Nat
  | 0, t => if pause t && !(stop t) then none else some t
  | fuel + 1, t =>
      if pause t && !(stop t) then shouldContinueAux pause stop fuel (t + 1)
      else some t

/-- `shouldContinue`: the loop above followed by `return !shouldStop.load()`,
with the final load taken at the exit observation.  Returns the Boolean
result together with the exit index (start index `t0`; `(texit - t0)`
iterations each slept `sleepIntervalMs` ms). -/
def shouldContinue (pause stop : Nat → Bool) (fuel t0 : Nat) : Option (Bool × Nat) :=
  (shouldContinueAux pause stop fuel t0).map fun t => (!(stop t), t)

/-- The guard loop of `shouldContinue` evaluated on a worker's own flag
values, held constant — the configuration in which no other code writes
the flags (as nothing in this repository does).  Returns the exit index of
the loop, `none` if it is still blocked after `fuel` evaluations. -/
def shouldContinueConst (w : Worker) (fuel : Nat) : Option Nat :=
  shouldContinueAux (fun _ => w.shouldPause) (fun _ => w.shouldStop) fuel 0

/-!
### MonitorWorker::run (BaseWorkers.h, lines 38-57)

    void run() override {
        setState(ThreadState::RUNNING);
        while (shouldContinue() && enabled_.load()) {
            iterationCount_++;
            if (callback_) { callback_(); } else { defaultMonitorLogic(); }
            std::this_thread::sleep_for(interval_);
        }
        setState(ThreadState::FINISHED);
    }

The callback may throw; the exception then escapes `run()` (there is no
try/catch in this body).  `cb n` is the outcome of the `n`-th callback
invocation (`n` = the value of `iterationCount_` just incremented).  The
worker's own flags are read by the inlined `shouldContinue`; during a run
with no concurrent controller activity they are constant, which is how the
guard is evaluated here.  A run outcome is `Except (String × Worker) Worker`:
`ok w'` is a normal return with final field values `w'`, `error (msg, w')`
is a `std::exception` with message `msg` escaping while the fields held `w'`.
`none` means the loop was still running after `fuel` iterations. -/

def monitorEnabled (w : Worker) : Bool :=
  match w.data with
  | .monitor en _ _ => en
  | _ => true

def monitorIncIter (w : Worker) : Worker :=
  match w.data with
  | .monitor en ic iv => { w with data := .monitor en (ic + 1) iv }
  | _ => w

def monitorIterCount (w : Worker) : Nat :=
  match w.data with
  | .monitor _ ic _ => ic
  | _ => 0

def monitorRunAux (cb : Nat → Except String Unit) :
    Nat → Worker → Option (Except (String × Worker) Worker)
  | 0, _ => none
  | fuel + 1, w =>
      -- loop guard: shouldContinue() && enabled_.load()
      if w.shouldPause && !w.shouldStop then
        none        -- shouldContinue blocks; with constant flags, forever
      else if !w.shouldStop && monitorEnabled w then
        let w := monitorIncIter w
        match cb (monitorIterCount w) with
        | .ok _ => monitorRunAux cb fuel w
        | .error msg => some (.error (msg, w))   -- exception escapes run()
      else
        some (.ok (w.setState ThreadState.FINISHED))

/-- `MonitorWorker::run`: `setState(RUNNING)` then the guarded loop. -/
def monitorRun (cb : Nat → Except String Unit) (fuel : Nat) (w : Worker) :
    Option (Except (String × Worker) Worker) :=
  monitorRunAux cb fuel (w.setState ThreadState.RUNNING)

/-!
### The manager's data (ThreadManager.h)
-/

/-- `IThreadWorkerFactory` (IThreadWorker.h, lines 191-219), shallowly:
`created` is the value `createWorker()` returns (`none` models returning a
null pointer), `factoryType` is `getFactoryType()`. -/
structure Factory where
  created : Option Worker
  factoryType : String := ""
deriving DecidableEq, Repr

/-- `ThreadInfo` (ThreadManager.h, lines 17-25): the thread handle and
`startTime` carry no claim-relevant data and are omitted; `running` is the
atomic flag, `name` the thread name.  NOTE (line 357): the insertion
`threads_[threadId]` default-constructs the entry, so the inserted entry's
`name` is `""` — the name passed to `startWorker` is never copied in. -/
structure ThreadInfo where
  worker : Worker
  running : Bool := false
  name : String := ""
deriving DecidableEq, Repr

/-- `std::unordered_map<size_t, ThreadInfo>` as an association list with
unique keys (lookup = `find`). -/
abbrev Registry := List (Nat × ThreadInfo)

/-- `threads_[threadId] = info`: overwrite if present, insert otherwise. -/
def mapInsert (reg : Registry) (id : Nat) (info : ThreadInfo) : Registry :=
  if (reg.lookup id).isSome then
    reg.map fun p => if p.1 = id then (id, info) else p
  else
    (id, info) :: reg

/-- The whole `ThreadManager` state (ThreadManager.h, lines 314-320):
`factories_`, `threads_`, `maxThreads_`, `nextId_` (the two mutexes and the
condition variable have no data content). -/
structure ManagerState where
  factories : List (String × Factory) := []
  threads : Registry := []
  maxThreads : Nat := 0
  nextId : Nat := 1
deriving DecidableEq, Repr

/-- `nextId_++`: post-increment of an `std::atomic<size_t>`, wrapping
mod 2^64. -/
def bumpId (st : ManagerState) : ManagerState :=
  { st with nextId := (st.nextId + 1) % 2 ^ 64 }

/-!
### The internal start protocol (ThreadManager.h, lines 325-364)

`startWorker`'s statements in program order.  `spawnThread` is the
declaration `std::thread newThread(lambda)` at line 336, which creates the
OS thread and begins executing the lambda immediately; `insertEntry` is
`threads_[threadId]` at line 357; `attachHandle` is line 362. -/
inductive StartAction where
  | allocId        -- line 326: threadId = nextId_++
  | onInitialize   -- line 333: info->worker->onInitialize()
  | spawnThread    -- line 336: std::thread newThread([this, threadId]{...})
  | insertEntry    -- line 357: ThreadInfo& threadInfo = threads_[threadId]
  | attachHandle   -- line 362: threadInfo.thread = make_unique<thread>(...)
deriving DecidableEq, Repr

/-- The statement order of `ThreadManager::startWorker`. -/
def startWorkerProtocol : List StartAction :=
  [.allocId, .onInitialize, .spawnThread, .insertEntry, .attachHandle]

/-- The caller-side effect of `startWorker` on the manager state: allocate
the id, run `onInitialize`, insert the entry (with `running = false`,
`name = ""` per the default-constructing `threads_[threadId]`), return the
id.  The spawned thread's own effects are `threadBody` below. -/
def startWorker (st : ManagerState) (w : Worker) (_name : String) : Nat × ManagerState :=
  let threadId := st.nextId
  let st := bumpId st
  let w := w.onInitialize
  (threadId, { st with threads := mapInsert st.threads threadId { worker := w } })

/-!
### The spawned thread's body (ThreadManager.h, lines 336-354)

    auto it = threads_.find(threadId);
    if (it != threads_.end()) {
        auto& info = it->second;
        info.running.store(true);
        info.worker->onStart();
        try { info.worker->run(); }
        catch (const std::exception& e) { info.worker->onError(e.what()); }
        info.running.store(false);
        condition_.notify_all();
    }

`runImpl` is the virtual `run()` of the entry's worker (e.g.
`monitorRun cb fuel`); its `none` result means `run()` did not return, in
which case the body never reaches the stores after it. -/

structure BodyResult where
  registry : Registry
  ranWorker : Bool       -- did the body reach onStart/run?
  notified : Bool        -- was condition_.notify_all() executed?
  faultEscaped : Bool    -- did an exception leave the thread function?
  onErrorInvoked : Bool  -- was worker->onError called?
deriving DecidableEq, Repr

def threadBody (runImpl : Worker → Option (Except (String × Worker) Worker))
    (reg : Registry) (threadId : Nat) : Option BodyResult :=
  match reg.lookup threadId with
  | none => some ⟨reg, false, false, false, false⟩
  | some info =>
      let info := { info with running := true }
      let w := info.worker.onStart
      match runImpl w with
      | none => none
      | some outcome =>
          let (w', errInvoked) :=
            match outcome with
            | .ok wOk => (wOk, false)
            | .error (msg, wEx) => (wEx.onError msg, true)  -- caught at the boundary
          some ⟨mapInsert reg threadId { info with worker := w', running := false },
                true, true, false, errInvoked⟩

/-!
### The manager's public operations (ThreadManager.h)
-/

/-- `ThreadManager::addFactory` (lines 60-69). -/
def addFactory (st : ManagerState) (factory : Factory) (ty : String) :
    Bool × ManagerState :=
  if (st.factories.lookup ty).isSome then
    (false, st)
  else
    (true, { st with factories := (ty, factory) :: st.factories })

/-- `ThreadManager::createThread` (lines 78-97).  With an empty `name` the
auto-name `type + "_" + std::to_string(nextId_++)` consumes one id before
`startWorker` allocates the thread id. -/
def createThread (st : ManagerState) (ty name : String) : Nat × ManagerState :=
  match st.factories.lookup ty with
  | none => (SIZE_MAX, st)
  | some f =>
      if st.maxThreads > 0 && decide (st.threads.length ≥ st.maxThreads) then
        (SIZE_MAX, st)
      else
        match f.created with
        | none => (SIZE_MAX, st)
        | some w =>
            if name = "" then
              startWorker (bumpId st) w (ty ++ "_" ++ toString st.nextId)
            else
              startWorker st w name

/-- `ThreadManager::createThreadWithWorker` (lines 106-117). -/
def createThreadWithWorker (st : ManagerState) (worker : Option Worker)
    (name : String) : Nat × ManagerState :=
  match worker with
  | none => (SIZE_MAX, st)
  | some w =>
      if st.maxThreads > 0 && decide (st.threads.length ≥ st.maxThreads) then
        (SIZE_MAX, st)
      else
        if name = "" then
          startWorker (bumpId st) w (w.getType ++ "_" ++ toString st.nextId)
        else
          startWorker st w name

/-- `ThreadManager::stopThread` (lines 126-142):

    auto it = threads_.find(threadId);
    if (it == threads_.end()) return false;
    auto& info = it->second;
    info.worker->onStop();
    if (info.thread && info.thread->joinable()) info.thread->join();
    return true;

The join at line 138 suspends the caller until the worker's thread function
exits.  If the entry's thread has already exited (`running = false`) the
join returns at once.  Otherwise the thread is inside the worker's `run()`
loop, which exits only when the cooperative continuation check returns;
since no code in the repository writes the two request flags, the polling
loop observes the constant flag values the worker holds after `onStop`.
`joinFuel` bounds the number of guard evaluations the join is allowed to
wait through: `none` means `stopThread` has not returned after `joinFuel`
polling intervals (it is still blocked in the join, holding
`threadsMutex_`). -/
def stopThread (st : ManagerState) (id : Nat) (joinFuel : Nat) :
    Option (Bool × ManagerState) :=
  match st.threads.lookup id with
  | none => some (false, st)
  | some info =>
      let w' := info.worker.onStop
      let st' := { st with threads := mapInsert st.threads id { info with worker := w' } }
      if info.running then
        match shouldContinueConst w' joinFuel with
        | none => none
        | some _ => some (true, st')
      else
        some (true, st')

/-- `ThreadManager::pauseThread` (lines 151-166). -/
def pauseThread (st : ManagerState) (id : Nat) : Bool × ManagerState :=
  match st.threads.lookup id with
  | none => (false, st)
  | some info =>
      if info.worker.isRunning then
        (true, { st with
                  threads := mapInsert st.threads id { info with worker := info.worker.onPause } })
      else
        (false, st)

/-- `ThreadManager::resumeThread` (lines 175-190). -/
def resumeThread (st : ManagerState) (id : Nat) : Bool × ManagerState :=
  match st.threads.lookup id with
  | none => (false, st)
  | some info =>
      if info.worker.isPaused then
        (true, { st with
                  threads := mapInsert st.threads id { info with worker := info.worker.onResume } })
      else
        (false, st)

/-- `ThreadManager::allThreadsFinished` (lines 369-376): every entry's
`running` flag is false (the worker's `state` is not consulted). -/
def allThreadsFinished (reg : Registry) : Bool :=
  reg.all fun p => !p.2.running

/-- `ThreadManager::cleanupFinishedThreadsUnsafe` (lines 381-394): erase the
entries with `!running` and `worker->isFinished()` (joining each first). -/
def cleanupFinishedThreadsUnsafe (reg : Registry) : Registry :=
  reg.filter fun p => !(!p.2.running && p.2.worker.isFinished)

/-- `ThreadManager::waitForAll` (lines 207-216): block on the condition
variable until `allThreadsFinished()`, then clean up.  `none` models "still
blocked in this registry state"; `some reg'` models returning with the
cleaned registry. -/
def waitForAll (reg : Registry) : Option Registry :=
  if allThreadsFinished reg then some (cleanupFinishedThreadsUnsafe reg) else none

/-!
### The observable state machine

Every write to a worker's `state` field in the repository is one of the
`setState` calls in a concrete `run()` body:

  * `setState(ThreadState::RUNNING)` as the first statement of `run()`
    (BaseWorkers.h 39, 148, 221, 328; examples/custom_worker.cpp 43, 128, 187),
    executed once per worker on its freshly constructed instance, whose
    atomic `state` is initialised to `STOPPED` (IThreadWorker.h 156);
  * `setState(ThreadState::FINISHED)` as the last statement of `run()`
    (BaseWorkers.h 56, 159, 247, 349; examples/custom_worker.cpp 52, 141, 196),
    executed when the body's loop exits (a fault escaping `run()` skips it).

No other code assigns the field (the manager's hooks do not touch it, and
nothing in the repository ever stores `PAUSED`).  `stateStep` is therefore
the exact write relation, and a worker's lifetime of observable state
values is a `stateTrace` (kept in reverse, newest first). -/
inductive stateStep : ThreadState → ThreadState → Prop
  | runEntry : stateStep ThreadState.STOPPED ThreadState.RUNNING
  | runExit : stateStep ThreadState.RUNNING ThreadState.FINISHED

inductive stateTrace : List ThreadState → Prop
  | init : stateTrace [ThreadState.STOPPED]
  | step {s s' : ThreadState} {rest : List ThreadState} :
      stateTrace (s :: rest) → stateStep s s' → stateTrace (s' :: s :: rest)

/-- The spec's pattern `Stopped, Running, (Paused, Running)^k, Finished`. -/
def specPattern : Nat → List ThreadState
  | 0 => [ThreadState.STOPPED, ThreadState.RUNNING, ThreadState.FINISHED]
  | k + 1 =>
      ThreadState.STOPPED :: ThreadState.RUNNING ::
        ThreadState.PAUSED :: (specPattern k).tail

/-!
### Concrete instances used to evaluate the model
-/

/-- A callback that throws on every invocation
(`callback_()` raising `std::runtime_error("boom")`). -/
def cbBoom : Nat → Except String Unit := fun _ => Except.error "boom"

/-- A freshly constructed MonitorWorker (1000 ms interval) whose callback
is `cbBoom`. -/
def faultingMonitor : Worker := { data := WorkerData.monitor true 0 1000 }

/-- A registry holding `faultingMonitor` under id 7, as inserted by
`startWorker`. -/
def regFaultingMonitor : Registry := [(7, { worker := faultingMonitor })]

/-- A worker whose pause-request flag is set and stop-request flag is
clear: exactly the configuration in which its thread sleeps inside
`shouldContinue`'s polling loop. -/
def sleepingWorker : Worker :=
  { state := ThreadState.RUNNING, shouldPause := true, data := WorkerData.custom "W" }

/-- A manager holding `sleepingWorker` under id 3, its thread executing
(`running = true`, the thread is inside the polling loop). -/
def stSleeping : ManagerState :=
  { threads := [(3, { worker := sleepingWorker, running := true })] }

/-- A LoopWorker in the `RUNNING` state, two of five iterations done. -/
def runningLoopWorker : Worker :=
  { state := ThreadState.RUNNING, data := WorkerData.loop 2 5 }

/-- A manager holding `runningLoopWorker` under id 9. -/
def stRunningLoop : ManagerState := { threads := [(9, { worker := runningLoopWorker })] }

/-- The registry after the thread hosting `faultingMonitor` (id 4) has run:
the body caught the callback's exception, called `onError`, and stored
`running = false`; the worker's state is still `RUNNING`. -/
def faultedRegistry : Registry :=
  [(4, { worker := { state := ThreadState.RUNNING, data := WorkerData.monitor true 1 1000 },
         running := false })]

/-- A worker whose stop-request flag is already set, so that
`MonitorWorker::run` exits its loop at the first guard and returns
normally. -/
def stoppedMonitor : Worker :=
  { shouldStop := true, data := WorkerData.monitor true 0 1000 }

/-!
### Shared helper lemmas
-/

theorem onStop_preserves_flags (w : Worker) :
    (w.onStop).shouldStop = w.shouldStop ∧ (w.onStop).shouldPause = w.shouldPause ∧
      (w.onStop).state = w.state := by
  cases w with
  | mk st stop pl d => cases d <;> simp [Worker.onStop]

theorem lookup_mapInsert_self (reg : Registry) (id : Nat) (info : ThreadInfo) :
    (mapInsert reg id info).lookup id = some info := by
  unfold mapInsert
  by_cases h : (reg.lookup id).isSome
  · simp only [h, if_true]
    induction reg with
    | nil => simp at h
    | cons p rest ih =>
        by_cases hp : p.1 = id
        · rw [List.map_cons, if_pos hp]
          simp [List.lookup]
        · simp only [List.map_cons, if_neg hp]
          have hne : (id == p.1) = false := by
            simp [beq_iff_eq]; exact fun he => hp he.symm
          simp only [List.lookup, hne] at h ⊢
          exact ih h
  · simp [h, List.lookup]

theorem shouldContinueAux_blocked (fuel t : Nat) :
    shouldContinueAux (fun _ => true) (fun _ => false) fuel t = none := by
  induction fuel generalizing t with
  | zero => simp [shouldContinueAux]
  | succ f ih => simp [shouldContinueAux, ih]

/-- A normal return of `MonitorWorker::run` always ends with
`setState(FINISHED)`: the `ok` outcome's state is `FINISHED`. -/
theorem monitorRunAux_ok_finished (cb : Nat → Except String Unit) (fuel : Nat)
    (w w' : Worker)
    (h : monitorRunAux cb fuel w = some (Except.ok w')) :
    w'.state = ThreadState.FINISHED := by
  induction fuel generalizing w with
  | zero => simp [monitorRunAux] at h
  | succ f ih =>
      unfold monitorRunAux at h
      by_cases h1 : w.shouldPause && !w.shouldStop
      · simp [h1] at h
      · simp only [h1, if_false] at h
        by_cases h2 : !w.shouldStop && monitorEnabled w
        · simp only [h2, if_true] at h
          cases hcb : cb (monitorIterCount (monitorIncIter w)) with
          | ok _ => rw [hcb] at h; exact ih _ h
          | error msg => rw [hcb] at h; simp at h
        · simp only [h2, if_false] at h
          cases h
          rfl

theorem monitorRun_ok_finished (cb : Nat → Except String Unit) (fuel : Nat)
    (w w' : Worker) (h : monitorRun cb fuel w = some (Except.ok w')) :
    w'.state = ThreadState.FINISHED :=
  monitorRunAux_ok_finished cb fuel _ w' h

/-- When the guard fails at the start index, the loop exits there at once,
with any fuel. -/
theorem shouldContinueAux_guard_false (pause stop : Nat → Bool) (fuel t : Nat)
    (h : ¬(pause t = true ∧ stop t = false)) :
    shouldContinueAux pause stop fuel t = some t := by
  have hg : (pause t && !(stop t)) = false := by
    cases hp : pause t <;> cases hs : stop t <;> simp_all
  cases fuel <;> simp [shouldContinueAux, hg]

/-- Exit characterisation of the polling loop: if it returns, it returns at
the first index at which the guard fails, every earlier index having been a
blocked (slept) iteration. -/
theorem shouldContinueAux_spec (pause stop : Nat → Bool) (fuel t0 texit : Nat)
    (h : shouldContinueAux pause stop fuel t0 = some texit) :
    t0 ≤ texit ∧ ¬(pause texit = true ∧ stop texit = false) ∧
      ∀ u, t0 ≤ u → u < texit → pause u = true ∧ stop u = false := by
  induction fuel generalizing t0 with
  | zero =>
      unfold shouldContinueAux at h
      by_cases hg : (pause t0 && !(stop t0)) = true
      · simp [hg] at h
      · rw [if_neg hg] at h
        cases h
        refine ⟨le_refl _, ?_, fun u h1 h2 => absurd (lt_of_le_of_lt h1 h2) (lt_irrefl _)⟩
        intro ⟨hp, hs⟩; simp [hp, hs] at hg
  | succ f ih =>
      unfold shouldContinueAux at h
      by_cases hg : (pause t0 && !(stop t0)) = true
      · rw [if_pos hg] at h
        obtain ⟨h1, h2, h3⟩ := ih (t0 + 1) h
        refine ⟨le_trans (Nat.le_succ _) h1, h2, fun u hu1 hu2 => ?_⟩
        rcases Nat.eq_or_lt_of_le hu1 with he | hl
        · subst he
          constructor
          · exact (Bool.and_eq_true _ _ ▸ hg).1
          · have := (Bool.and_eq_true _ _ ▸ hg).2
            simpa using this
        · exact h3 u hl hu2
      · rw [if_neg hg] at h
        cases h
        refine ⟨le_refl _, ?_, fun u h1 h2 => absurd (lt_of_le_of_lt h1 h2) (lt_irrefl _)⟩
        intro ⟨hp, hs⟩; simp [hp, hs] at hg

/-- A persistently set pause flag with no stop request blocks the loop for
any amount of fuel. -/
theorem shouldContinueAux_persistent (pause stop : Nat → Bool) (fuel t0 : Nat)
    (h : ∀ u, t0 ≤ u → pause u = true ∧ stop u = false) :
    shouldContinueAux pause stop fuel t0 = none := by
  induction fuel generalizing t0 with
  | zero =>
      obtain ⟨hp, hs⟩ := h t0 (le_refl _)
      simp [shouldContinueAux, hp, hs]
  | succ f ih =>
      obtain ⟨hp, hs⟩ := h t0 (le_refl _)
      simp only [shouldContinueAux, hp, hs]
      simpa using ih (t0 + 1) fun u hu => h u (le_trans (Nat.le_succ _) hu)

/-- Shape invariant of the observable state machine: a worker's state
history is a prefix of `STOPPED, RUNNING, FINISHED` (kept reversed). -/
theorem stateTrace_shape (tr : List ThreadState) (h : stateTrace tr) :
    tr = [ThreadState.STOPPED] ∨
    tr = [ThreadState.RUNNING, ThreadState.STOPPED] ∨
    tr = [ThreadState.FINISHED, ThreadState.RUNNING, ThreadState.STOPPED] := by
  induction h with
  | init => exact Or.inl rfl
  | @step s s' rest h hs ih =>
      rcases ih with h1 | h1 | h1
      · injection h1 with ha hb
        subst ha; subst hb
        cases hs
        exact Or.inr (Or.inl rfl)
      · injection h1 with ha hb
        subst ha; subst hb
        cases hs
        exact Or.inr (Or.inr rfl)
      · injection h1 with ha hb
        subst ha
        cases hs

/-!
### The claims
-/

/-- C7: `addFactory` succeeds (returns true) on the first registration under
a name; any second call with the same name returns false, after which the
factory registered first is still the one mapped to that name and the
factory registry is not mutated in any other way. -/
theorem C7_addFactory_first_wins (st : ManagerState) (f g : Factory) (ty : String)
    (h : st.factories.lookup ty = none) :
    (addFactory st f ty).1 = true ∧
    (addFactory st f ty).2.factories.lookup ty = some f ∧
    (addFactory (addFactory st f ty).2 g ty).1 = false ∧
    (addFactory (addFactory st f ty).2 g ty).2 = (addFactory st f ty).2 := by
  have h1 : (st.factories.lookup ty).isSome = false := by rw [h]; rfl
  unfold addFactory
  rw [h1]
  have h2 : (((ty, f) :: st.factories).lookup ty) = some f := by
    simp [List.lookup]
  simp [h2]

/-- C7 witness: the theorem evaluated on the empty manager. -/
theorem C7_addFactory_first_wins_witness :
    (addFactory {} ⟨none, "A"⟩ "A").1 = true ∧
    (addFactory {} ⟨none, "A"⟩ "A").2.factories.lookup "A" = some ⟨none, "A"⟩ ∧
    (addFactory (addFactory {} ⟨none, "A"⟩ "A").2 ⟨none, "B"⟩ "A").1 = false ∧
    (addFactory (addFactory {} ⟨none, "A"⟩ "A").2 ⟨none, "B"⟩ "A").2 =
      (addFactory {} ⟨none, "A"⟩ "A").2 :=
  C7_addFactory_first_wins {} ⟨none, "A"⟩ ⟨none, "B"⟩ "A" rfl

/-- C10: `createThreadWithWorker` called with a null worker pointer returns
the failure sentinel `SIZE_MAX` and leaves the thread registry, the factory
registry and the id counter unchanged. -/
theorem C10_null_worker_rejected (st : ManagerState) (name : String) :
    (createThreadWithWorker st none name).1 = SIZE_MAX ∧
    (createThreadWithWorker st none name).2.threads = st.threads ∧
    (createThreadWithWorker st none name).2.factories = st.factories ∧
    (createThreadWithWorker st none name).2.nextId = st.nextId := by
  exact ⟨rfl, rfl, rfl, rfl⟩

/-- C4: the sequence of state values of any worker is a subsequence of
`Stopped, Running, (Paused, Running)*, Finished`; every worker starts in
`Stopped`; and there is no transition out of `Finished`. -/
theorem C4_state_machine :
    (∀ tr, stateTrace tr → tr.getLast? = some ThreadState.STOPPED) ∧
    (∀ tr, stateTrace tr → ∃ k, tr.reverse.Sublist (specPattern k)) ∧
    (∀ s, ¬ stateStep ThreadState.FINISHED s) := by
  refine ⟨fun tr h => ?_, fun tr h => ?_, fun s hs => ?_⟩
  · rcases stateTrace_shape tr h with h1 | h1 | h1 <;> rw [h1] <;> rfl
  · refine ⟨0, ?_⟩
    rcases stateTrace_shape tr h with h1 | h1 | h1 <;> rw [h1] <;> decide
  · cases hs

/-- C4 witness: the theorem evaluated on the trace of a worker that has
been started and not yet finished. -/
theorem C4_state_machine_witness :
    [ThreadState.RUNNING, ThreadState.STOPPED].getLast? = some ThreadState.STOPPED ∧
    ∃ k, [ThreadState.RUNNING, ThreadState.STOPPED].reverse.Sublist (specPattern k) :=
  ⟨C4_state_machine.1 _ (stateTrace.step stateTrace.init stateStep.runEntry),
   C4_state_machine.2.1 _ (stateTrace.step stateTrace.init stateStep.runEntry)⟩

/-- C5 counterexample: in `ThreadManager::startWorker` the dedicated thread
is created (and starts executing) strictly before the registry entry for
the new id is inserted, so the claim "inserted before, or atomically with,
creation of the dedicated thread" is false of the source's statement
order. -/
theorem C5_counterexample :
    ¬ startWorkerProtocol.indexOf StartAction.insertEntry ≤
        startWorkerProtocol.indexOf StartAction.spawnThread := by decide

/-- C5 (amended): the registry entry is inserted only after the dedicated
thread has been created; the spawned thread therefore guards its lookup,
and when its id is not yet resolvable it exits without marking the entry
active, without running the worker and without signalling the wait
condition. -/
theorem C5_insert_after_spawn
    (runImpl : Worker → Option (Except (String × Worker) Worker))
    (reg : Registry) (id : Nat) (h : reg.lookup id = none) :
    startWorkerProtocol.indexOf StartAction.spawnThread <
      startWorkerProtocol.indexOf StartAction.insertEntry ∧
    threadBody runImpl reg id = some ⟨reg, false, false, false, false⟩ := by
  constructor
  · decide
  · unfold threadBody
    rw [h]

/-- C5 witness: the amended theorem evaluated on the empty registry. -/
theorem C5_insert_after_spawn_witness :
    startWorkerProtocol.indexOf StartAction.spawnThread <
      startWorkerProtocol.indexOf StartAction.insertEntry ∧
    threadBody (monitorRun cbBoom 1) [] 1 = some ⟨[], false, false, false, false⟩ :=
  C5_insert_after_spawn (monitorRun cbBoom 1) [] 1 rfl

/-- C3 counterexample: on a manager holding a `RUNNING` LoopWorker,
`pauseThread` returns true but the immediately following `resumeThread`
returns false (the worker's state is still `RUNNING`, never `PAUSED`), so
the claim that both calls succeed is false. -/
theorem C3_counterexample :
    (pauseThread stRunningLoop 9).1 = true ∧
    (resumeThread (pauseThread stRunningLoop 9).2 9).1 = false := by decide

/-- C3 (amended): `pauseThread` on a `Running` worker returns true and
invokes `onPause`, which is a no-op, so the worker is left `Running` with
its progress counters (e.g. a LoopWorker's completed-iteration count)
unchanged; the worker never passes through `Paused`, and the immediately
following `resumeThread` therefore returns false. -/
theorem C3_pause_resume_roundtrip (st : ManagerState) (id : Nat) (info : ThreadInfo)
    (hfind : st.threads.lookup id = some info)
    (hrun : info.worker.state = ThreadState.RUNNING) :
    (pauseThread st id).1 = true ∧
    info.worker.onPause = info.worker ∧
    (pauseThread st id).2.threads.lookup id = some { info with worker := info.worker.onPause } ∧
    (resumeThread (pauseThread st id).2 id).1 = false := by
  have hisr : info.worker.isRunning = true := by
    simp [Worker.isRunning, hrun]
  have hpause : pauseThread st id =
      (true, { st with
                threads := mapInsert st.threads id { info with worker := info.worker.onPause } }) := by
    unfold pauseThread
    rw [hfind]
    simp [hisr]
  have hsome : (st.threads.lookup id).isSome = true := by rw [hfind]; rfl
  have hlook : (mapInsert st.threads id { info with worker := info.worker.onPause }).lookup id =
      some { info with worker := info.worker.onPause } :=
    lookup_mapInsert_self st.threads id _
  refine ⟨by rw [hpause], rfl, by rw [hpause]; exact hlook, ?_⟩
  rw [hpause]
  unfold resumeThread
  simp only [hlook]
  have hnp : ({ info with worker := info.worker.onPause } : ThreadInfo).worker.isPaused = false := by
    simp [Worker.onPause, Worker.isPaused, hrun]
  rw [hnp]
  simp

/-- C3 witness: the amended theorem evaluated on the manager holding a
running LoopWorker. -/
theorem C3_pause_resume_roundtrip_witness :
    (pauseThread stRunningLoop 9).1 = true ∧
    runningLoopWorker.onPause = runningLoopWorker ∧
    (pauseThread stRunningLoop 9).2.threads.lookup 9 =
      some { worker := runningLoopWorker.onPause } ∧
    (resumeThread (pauseThread stRunningLoop 9).2 9).1 = false :=
  C3_pause_resume_roundtrip stRunningLoop 9 { worker := runningLoopWorker } rfl rfl

/-- C2 counterexample: on a manager holding a worker whose thread is
executing inside its cooperative wait (pause-request flag set, stop-request
flag clear, `running = true`), `stopThread` has not returned after 50
polling intervals — the `onStop` hook set no flag, so the wait guard still
holds, the join blocks, and the worker's state is still `RUNNING`: it
neither returns true nor brings the worker to `Finished` within one
bounded polling interval. -/
theorem C2_counterexample :
    stopThread stSleeping 3 50 = none ∧
    sleepingWorker.onStop.shouldStop = false ∧
    sleepingWorker.onStop.shouldPause = true ∧
    sleepingWorker.onStop.state = ThreadState.RUNNING := by decide

/-- C2 (amended): `stopThread(id)` on a registered id whose worker is
currently sleeping inside its cooperative continuation check invokes the
worker's `onStop` hook, but no `onStop` implementation in the repository
sets the stop-request flag, so the wait guard still holds after the call:
the worker never exits its polling loop or reaches `Finished`, and
`stopThread` itself never returns — for any number of polling intervals it
is still blocked in the join at ThreadManager.h line 138, holding the
registry lock. -/
theorem C2_stopThread_blocks_in_join (st : ManagerState) (id : Nat)
    (info : ThreadInfo) (hfind : st.threads.lookup id = some info)
    (hrunning : info.running = true)
    (hp : info.worker.shouldPause = true) (hs : info.worker.shouldStop = false) :
    info.worker.onStop.shouldPause = true ∧
    info.worker.onStop.shouldStop = false ∧
    (∀ fuel, shouldContinueConst info.worker.onStop fuel = none) ∧
    (∀ joinFuel, stopThread st id joinFuel = none) := by
  obtain ⟨hstop, hpause, _⟩ := onStop_preserves_flags info.worker
  have hp' : info.worker.onStop.shouldPause = true := by rw [hpause, hp]
  have hs' : info.worker.onStop.shouldStop = false := by rw [hstop, hs]
  have hwait : ∀ fuel, shouldContinueConst info.worker.onStop fuel = none := by
    intro fuel
    unfold shouldContinueConst
    simp only [hp', hs']
    exact shouldContinueAux_blocked fuel 0
  refine ⟨hp', hs', hwait, fun joinFuel => ?_⟩
  unfold stopThread
  rw [hfind]
  simp only [hrunning, if_true, hwait joinFuel]

/-- C2 witness: the amended theorem evaluated on the manager holding the
sleeping worker. -/
theorem C2_stopThread_blocks_in_join_witness :
    sleepingWorker.onStop.shouldPause = true ∧
    sleepingWorker.onStop.shouldStop = false ∧
    shouldContinueConst sleepingWorker.onStop 7 = none ∧
    stopThread stSleeping 3 7 = none :=
  ⟨(C2_stopThread_blocks_in_join stSleeping 3 { worker := sleepingWorker, running := true }
      rfl rfl rfl rfl).1,
   (C2_stopThread_blocks_in_join stSleeping 3 { worker := sleepingWorker, running := true }
      rfl rfl rfl rfl).2.1,
   (C2_stopThread_blocks_in_join stSleeping 3 { worker := sleepingWorker, running := true }
      rfl rfl rfl rfl).2.2.1 7,
   (C2_stopThread_blocks_in_join stSleeping 3 { worker := sleepingWorker, running := true }
      rfl rfl rfl rfl).2.2.2 7⟩

/-- C1 counterexample: a MonitorWorker whose callback throws on its first
invocation.  The hosting thread's boundary catches the fault, invokes
`onError`, clears the running flag and notifies — nothing escapes — but
the worker's state after the fault is `RUNNING`, not `FINISHED`: the claim
that the worker still transitions to `Finished` is false. -/
theorem C1_counterexample :
    threadBody (monitorRun cbBoom 5) regFaultingMonitor 7 =
      some ⟨[(7, { worker := { state := ThreadState.RUNNING,
                               data := WorkerData.monitor true 1 1000 } })],
            true, true, false, true⟩ ∧
    ThreadState.RUNNING ≠ ThreadState.FINISHED := by decide

/-- C1 (amended): a fault raised by a worker's `run()` body is caught at
the boundary between `run()` and its hosting thread, forwarded to that
worker's own `onError` hook, and never propagates to or crashes the
controlling thread; the entry is marked inactive and the wait condition is
notified.  The worker's state, however, is whatever `run()` last stored —
the boundary does not set it, so a fault that escapes `run()` before its
final `setState(FINISHED)` leaves the worker un-`Finished`. -/
theorem C1_fault_caught_at_boundary
    (runImpl : Worker → Option (Except (String × Worker) Worker))
    (reg : Registry) (id : Nat) (info : ThreadInfo) (msg : String) (wEx : Worker)
    (hfind : reg.lookup id = some info)
    (hrun : runImpl info.worker.onStart = some (Except.error (msg, wEx))) :
    threadBody runImpl reg id =
      some ⟨mapInsert reg id { info with worker := wEx.onError msg, running := false },
            true, true, false, true⟩ ∧
    (wEx.onError msg).state = wEx.state := by
  obtain ⟨w, r, nm⟩ := info
  constructor
  · unfold threadBody
    rw [hfind]
    simp only []
    rw [hrun]
  · rfl

/-- C1 witness: the amended theorem evaluated on the faulting
MonitorWorker under id 7. -/
theorem C1_fault_caught_at_boundary_witness :
    threadBody (monitorRun cbBoom 5) regFaultingMonitor 7 =
      some ⟨mapInsert regFaultingMonitor 7
              { worker := Worker.onError
                  { state := ThreadState.RUNNING, data := WorkerData.monitor true 1 1000 } "boom",
                running := false },
            true, true, false, true⟩ ∧
    (Worker.onError
        { state := ThreadState.RUNNING, data := WorkerData.monitor true 1 1000 } "boom").state =
      ({ state := ThreadState.RUNNING, data := WorkerData.monitor true 1 1000 } : Worker).state :=
  C1_fault_caught_at_boundary (monitorRun cbBoom 5) regFaultingMonitor 7
    { worker := faultingMonitor } "boom"
    { state := ThreadState.RUNNING, data := WorkerData.monitor true 1 1000 } rfl rfl

/-- C6 counterexample: after the thread hosting a MonitorWorker whose
callback threw has exited, the registry it leaves behind satisfies
`allThreadsFinished` (every `running` flag is false), so `waitForAll`
returns — yet the worker's state is not `Finished` (and the cleanup sweep
does not even remove it): the claim that `waitForAll` returns only after
every worker reports `Finished` is false. -/
theorem C6_counterexample :
    (threadBody (monitorRun cbBoom 5)
        [(4, { worker := { data := WorkerData.monitor true 0 1000 } })] 4).map
        (fun r => r.registry) = some faultedRegistry ∧
    waitForAll faultedRegistry = some faultedRegistry ∧
    (faultedRegistry.lookup 4).map (fun i => i.worker.isFinished) = some false := by decide

/-- C6 (amended): `waitForAll()` returns exactly when every registered
entry's `running` flag is false, i.e. when every created thread's body has
exited; with zero registered threads it returns immediately.  For a worker
whose `run()` returns normally this coincides with reporting `Finished`
(a normal MonitorWorker exit ends in `FINISHED`), but it is the `running`
flags, not the workers' states, that are consulted. -/
theorem C6_waitForAll_running_flags (reg : Registry) :
    ((waitForAll reg).isSome ↔ ∀ p ∈ reg, p.2.running = false) ∧
    waitForAll ([] : Registry) = some [] ∧
    (∀ cb fuel w w', monitorRun cb fuel w = some (Except.ok w') →
        w'.isFinished = true) := by
  refine ⟨?_, rfl, fun cb fuel w w' h => ?_⟩
  · unfold waitForAll allThreadsFinished
    by_cases h : reg.all (fun p => !p.2.running) = true
    · simp only [h, if_true, Option.isSome_some, true_iff]
      intro p hp
      have := (List.all_eq_true.mp h) p hp
      simpa using this
    · simp only [h, if_false]
      constructor
      · intro hc; cases hc
      · intro hall
        exact absurd (List.all_eq_true.mpr fun p hp => by simpa using hall p hp) h
  · have := monitorRun_ok_finished cb fuel w w' h
    simp [Worker.isFinished, this]

/-- C6 witness: the amended theorem evaluated on the empty registry and on
a MonitorWorker that exits its loop at once because its stop flag is
set. -/
theorem C6_waitForAll_running_flags_witness :
    (waitForAll ([] : Registry)).isSome ∧
    ({ stoppedMonitor with state := ThreadState.FINISHED } : Worker).isFinished = true :=
  ⟨((C6_waitForAll_running_flags []).1).mpr (by simp),
   (C6_waitForAll_running_flags []).2.2 (fun _ => Except.ok ()) 1 stoppedMonitor
     { stoppedMonitor with state := ThreadState.FINISHED } rfl⟩

/-- C8: `createThread(type, name)` returns the sentinel `SIZE_MAX` — with
the manager state unchanged — exactly when the type has no registered
factory, or the nonzero ceiling is reached, or the factory returns no
worker; otherwise it returns a newly generated id (the current or the next
counter value, depending on auto-naming), which is distinct from the
sentinel as long as the monotonic id counter has not wrapped to
`SIZE_MAX`. -/
theorem C8_createThread_sentinel (st : ManagerState) (ty name : String)
    (h : st.nextId + 1 < SIZE_MAX) :
    ((createThread st ty name).1 = SIZE_MAX ↔
        st.factories.lookup ty = none ∨
        (0 < st.maxThreads ∧ st.maxThreads ≤ st.threads.length) ∨
        (∃ f, st.factories.lookup ty = some f ∧ f.created = none)) ∧
    ((createThread st ty name).1 = SIZE_MAX → (createThread st ty name).2 = st) ∧
    ((createThread st ty name).1 ≠ SIZE_MAX →
        (createThread st ty name).1 = st.nextId ∨
        (createThread st ty name).1 = st.nextId + 1) := by
  have hmodlt : st.nextId + 1 < 2 ^ 64 := lt_of_lt_of_le h (Nat.sub_le _ _)
  cases hl : st.factories.lookup ty with
  | none =>
      have hr : createThread st ty name = (SIZE_MAX, st) := by
        simp [createThread, hl]
      rw [hr]
      exact ⟨by simp, fun _ => rfl, fun hne => absurd rfl hne⟩
  | some f =>
      by_cases hc : 0 < st.maxThreads ∧ st.maxThreads ≤ st.threads.length
      · have hcb : (decide (st.maxThreads > 0) &&
            decide (st.threads.length ≥ st.maxThreads)) = true := by
          simp [hc.1, hc.2]
        have hr : createThread st ty name = (SIZE_MAX, st) := by
          simp [createThread, hl, hcb]
        rw [hr]
        exact ⟨⟨fun _ => Or.inr (Or.inl hc), fun _ => rfl⟩, fun _ => rfl,
               fun hne => absurd rfl hne⟩
      · have hcb : (decide (st.maxThreads > 0) &&
            decide (st.threads.length ≥ st.maxThreads)) = false := by
          rcases Nat.eq_zero_or_pos st.maxThreads with h1 | h1
          · simp [h1]
          · have h2 : (decide (st.threads.length ≥ st.maxThreads)) = false :=
              decide_eq_false fun hge => hc ⟨h1, hge⟩
            simp [h2]
        cases hw : f.created with
        | none =>
            have hr : createThread st ty name = (SIZE_MAX, st) := by
              simp [createThread, hl, hcb, hw]
            rw [hr]
            exact ⟨⟨fun _ => Or.inr (Or.inr ⟨f, rfl, hw⟩), fun _ => rfl⟩,
                   fun _ => rfl, fun hne => absurd rfl hne⟩
        | some w =>
            have hrhs : ¬ ((some f : Option Factory) = none ∨
                (0 < st.maxThreads ∧ st.maxThreads ≤ st.threads.length) ∨
                (∃ f', (some f : Option Factory) = some f' ∧ f'.created = none)) := by
              rintro (h1 | h1 | ⟨f', hf', hcre⟩)
              · cases h1
              · exact hc h1
              · injection hf' with hf'
                rw [← hf', hw] at hcre
                cases hcre
            by_cases hnm : name = ""
            · have hr : createThread st ty name =
                  startWorker (bumpId st) w (ty ++ "_" ++ toString st.nextId) := by
                simp [createThread, hl, hcb, hw, hnm]
              have hid : (createThread st ty name).1 = st.nextId + 1 := by
                rw [hr]
                show (st.nextId + 1) % 2 ^ 64 = st.nextId + 1
                exact Nat.mod_eq_of_lt hmodlt
              have hne : (createThread st ty name).1 ≠ SIZE_MAX := by
                rw [hid]; exact Nat.ne_of_lt h
              exact ⟨⟨fun he => absurd he hne, fun hx => absurd hx hrhs⟩,
                     fun he => absurd he hne, fun _ => Or.inr hid⟩
            · have hr : createThread st ty name = startWorker st w name := by
                simp [createThread, hl, hcb, hw, hnm]
              have hid : (createThread st ty name).1 = st.nextId := by rw [hr]; rfl
              have hne : (createThread st ty name).1 ≠ SIZE_MAX := by
                rw [hid]; exact Nat.ne_of_lt (Nat.lt_of_succ_lt h)
              exact ⟨⟨fun he => absurd he hne, fun hx => absurd hx hrhs⟩,
                     fun he => absurd he hne, fun _ => Or.inl hid⟩

/-- C8 witness: the theorem evaluated on a fresh manager and an
unregistered type name. -/
theorem C8_createThread_sentinel_witness :
    (createThread {} "x" "n").1 = SIZE_MAX ∧ (createThread {} "x" "n").2 = {} :=
  ⟨((C8_createThread_sentinel {} "x" "n" (by decide)).1).mpr (Or.inl rfl),
   (C8_createThread_sentinel {} "x" "n" (by decide)).2.1
     (((C8_createThread_sentinel {} "x" "n" (by decide)).1).mpr (Or.inl rfl))⟩

/-- C9: the cooperative continuation check sleeps in 100 ms polls exactly
while the pause-request flag is set and the stop-request flag is not; when
it returns, it does so at the first observation at which that guard fails,
returning false precisely when the stop-request flag is set there and true
otherwise; if the guard holds forever it never returns; and with unchanged
flags its outcome does not depend on when it is called
(level-triggered). -/
theorem C9_shouldContinue_semantics (pause stop : Nat → Bool) (fuel t0 : Nat) :
    sleepIntervalMs = 100 ∧
    (∀ b texit, shouldContinue pause stop fuel t0 = some (b, texit) →
        t0 ≤ texit ∧ ¬(pause texit = true ∧ stop texit = false) ∧
        (∀ u, t0 ≤ u → u < texit → pause u = true ∧ stop u = false) ∧
        (b = false ↔ stop texit = true)) ∧
    (¬(pause t0 = true ∧ stop t0 = false) →
        shouldContinue pause stop fuel t0 = some (!(stop t0), t0)) ∧
    ((∀ u, t0 ≤ u → pause u = true ∧ stop u = false) →
        shouldContinue pause stop fuel t0 = none) ∧
    (∀ (p s : Bool) (t1 : Nat),
        (shouldContinue (fun _ => p) (fun _ => s) fuel t0).map Prod.fst =
        (shouldContinue (fun _ => p) (fun _ => s) fuel t1).map Prod.fst) := by
  refine ⟨rfl, ?_, ?_, ?_, ?_⟩
  · intro b texit hcall
    unfold shouldContinue at hcall
    cases haux : shouldContinueAux pause stop fuel t0 with
    | none => rw [haux] at hcall; cases hcall
    | some t =>
        rw [haux] at hcall
        simp only [Option.map_some'] at hcall
        injection hcall with hcall
        injection hcall with hb ht
        subst hb
        rw [ht] at haux
        obtain ⟨h1, h2, h3⟩ := shouldContinueAux_spec pause stop fuel t0 texit haux
        refine ⟨h1, h2, h3, ?_⟩
        rw [ht]
        cases hs : stop texit <;> simp
  · intro hg
    unfold shouldContinue
    rw [shouldContinueAux_guard_false pause stop fuel t0 hg]
    rfl
  · intro hpersist
    unfold shouldContinue
    rw [shouldContinueAux_persistent pause stop fuel t0 hpersist]
    rfl
  · intro p s t1
    by_cases hps : p = true ∧ s = false
    · obtain ⟨hp, hs⟩ := hps
      subst hp; subst hs
      unfold shouldContinue
      rw [shouldContinueAux_blocked fuel t0, shouldContinueAux_blocked fuel t1]
    · unfold shouldContinue
      rw [shouldContinueAux_guard_false _ _ fuel t0 hps,
          shouldContinueAux_guard_false _ _ fuel t1 hps]
      rfl

/-- C9 witness: the theorem evaluated on concrete flag configurations:
no requests outstanding yields an immediate true; a persistent pause
request with no stop request never returns. -/
theorem C9_shouldContinue_semantics_witness :
    shouldContinue (fun _ => false) (fun _ => false) 3 0 = some (true, 0) ∧
    shouldContinue (fun _ => true) (fun _ => false) 3 0 = none :=
  ⟨(C9_shouldContinue_semantics (fun _ => false) (fun _ => false) 3 0).2.2.1
      (by simp),
   (C9_shouldContinue_semantics (fun _ => true) (fun _ => false) 3 0).2.2.2.1
      (fun u _ => ⟨rfl, rfl⟩)⟩

end ThreadFramework
